import Mathlib

/-!
Shallow embedding of the test-binary crate's core logic:

* `processLoop` / `scanMessages` / `processMessages` embed the message loop of
  `process_messages` in src/stream.rs (the build-event stream scanner);
* `build_reconcile` embeds the exit-status reconciliation at the tail of
  `TestBinary::build` in src/lib.rs, with the `.expect(...)` panic made
  explicit as a `BuildResult.panicked` value.
-/

/-- A cargo build target, as read by src/stream.rs from a compiler-artifact
record: its name and its kind list. -/
structure Target where
  name : String
  kind : List String
deriving DecidableEq

/-- A compiler-artifact record: the target it was built for and the optional
executable path it carries (`artf.executable` in src/stream.rs). -/
structure Artifact where
  target : Target
  executable : Option String
deriving DecidableEq

/-- The variants of `cargo_metadata::Message` that `process_messages`
distinguishes. `compilerMessage` carries the text produced by the record's
Display rendering (what `writeln!` appends); `textLine` is a line that did not
parse as a structured record; every other structured record kind collapses to
`other`, which the loop skips. -/
inductive Message where
  | compilerArtifact (artf : Artifact)
  | compilerMessage (msg : String)
  | textLine (text : String)
  | buildFinished (success : Bool)
  | other
deriving DecidableEq

/-- The `TestBinaryError` enum of src/lib.rs. Each constructor carries the
string payload its Rust counterpart carries (IO and manifest errors are
collapsed to their message text). -/
inductive TestBinaryError where
  | nonCargoRun (msg : String)
  | cargoRunError (msg : String)
  | cargoFailure (stderr_text : String)
  | buildError (msgs : String)
  | binaryNotBuilt (name : String)
  | manifestError (msg : String)
deriving DecidableEq

/-- The guard of the `Message::CompilerArtifact` arm in src/stream.rs:
`artf.target.name == binary_name && artf.target.kind.contains("bin")`. -/
def isMatch (binary_name : String) (t : Target) : Bool :=
  t.name == binary_name && t.kind.contains "bin"

/-- The `for message in messages.flatten()` loop of `process_messages`
(src/stream.rs lines 25-63), with the two mutable locals `cargo_outcome` and
`compiler_messages` passed as explicit state. Each `break` is embedded as a
direct return of the outcome assigned just before it. A `CompilerArtifact`
whose guard fails falls through to the `_ => continue` arm. -/
def processLoop (binary_name : String) :
    List Message → Option (Except TestBinaryError String) → String →
    Option (Except TestBinaryError String)
  | [], cargo_outcome, _ => cargo_outcome
  | Message.compilerArtifact artf :: rest, cargo_outcome, compiler_messages =>
    if isMatch binary_name artf.target then
      some (match artf.executable with
        | some path => Except.ok path
        | none => Except.error (TestBinaryError.binaryNotBuilt binary_name))
    else
      processLoop binary_name rest cargo_outcome compiler_messages
  | Message.compilerMessage msg :: rest, cargo_outcome, compiler_messages =>
    processLoop binary_name rest cargo_outcome (compiler_messages ++ msg ++ "\n")
  | Message.textLine text :: rest, cargo_outcome, compiler_messages =>
    processLoop binary_name rest cargo_outcome (compiler_messages ++ text ++ "\n")
  | Message.buildFinished success :: _, cargo_outcome, compiler_messages =>
    if success then
      cargo_outcome.orElse fun _ =>
        some (Except.error (TestBinaryError.binaryNotBuilt binary_name))
    else
      some (Except.error (TestBinaryError.buildError compiler_messages))
  | Message.other :: rest, cargo_outcome, compiler_messages =>
    processLoop binary_name rest cargo_outcome compiler_messages

/-- `process_messages` restricted to an already-flattened message list:
the loop started with `cargo_outcome = None` and an empty
`compiler_messages` buffer. -/
def scanMessages (msgs : List Message) (binary_name : String) :
    Option (Except TestBinaryError String) :=
  processLoop binary_name msgs none ""

/-- The `.flatten()` applied to `Message::parse_stream(reader)` in
src/stream.rs line 25: items of the stream iterator are `io::Result`s, and
flattening keeps the `Ok` payloads and silently drops the `Err` items. -/
def flattenStream (stream : List (Except String Message)) : List Message :=
  stream.filterMap Except.toOption

/-- `process_messages` (src/stream.rs lines 12-66) over the iterator of
`io::Result<Message>` items produced by `Message::parse_stream`. -/
def processMessages (stream : List (Except String Message))
    (binary_name : String) : Option (Except TestBinaryError String) :=
  scanMessages (flattenStream stream) binary_name

/-- Result of `TestBinary::build`'s reconciliation, with the `.expect` panic
reified as a value so that it can be reasoned about. -/
inductive BuildResult where
  | ok (path : String)
  | err (e : TestBinaryError)
  | panicked (msg : String)
deriving DecidableEq

/-- The tail of `TestBinary::build` (src/lib.rs lines 319-338): reconciling the
child's exit status with `cargo_outcome` from `process_messages` and the
`error_msg` text read from stderr.
Source: `if wait.success \x7b outcome.expect("Cargo succeeded but produced no
output").map(Into) \x7d else if let Some(Err(err)) = outcome \x7b Err(err) \x7d
else \x7b Err(CargoFailure(error_msg)) \x7d`. -/
def build_reconcile (exit_success : Bool)
    (cargo_outcome : Option (Except TestBinaryError String))
    (error_msg : String) : BuildResult :=
  if exit_success then
    match cargo_outcome with
    | none => BuildResult.panicked "Cargo succeeded but produced no output"
    | some (Except.ok path) => BuildResult.ok path
    | some (Except.error e) => BuildResult.err e
  else
    match cargo_outcome with
    | some (Except.error e) => BuildResult.err e
    | _ => BuildResult.err (TestBinaryError.cargoFailure error_msg)

/-- Does this message make the scanning loop stop (break)? True exactly for a
compiler-artifact record whose guard matches and for any build-finished
record. -/
def stopsScan (binary_name : String) (m : Message) : Bool :=
  match m with
  | Message.compilerArtifact artf => isMatch binary_name artf.target
  | Message.buildFinished _ => true
  | _ => false

/-- No message of the list stops the scanning loop. -/
def noStop (binary_name : String) : List Message → Bool
  | [] => true
  | m :: rest => !stopsScan binary_name m && noStop binary_name rest

/-- The diagnostic lines a message list contributes to the accumulating
buffer: the content of each compiler-message and text-line record followed by
one line terminator, in arrival order; every other message contributes
nothing. -/
def diagLines : List Message → List String
  | [] => []
  | Message.compilerMessage msg :: rest => (msg ++ "\n") :: diagLines rest
  | Message.textLine text :: rest => (text ++ "\n") :: diagLines rest
  | _ :: rest => diagLines rest

/-- A message the scanning loop passes over without touching its state:
a compiler-artifact record whose guard does not match, or a structured record
of any other kind (the `_ => continue` arm). -/
def isFrame (binary_name : String) (m : Message) : Bool :=
  match m with
  | Message.compilerArtifact artf => !isMatch binary_name artf.target
  | Message.other => true
  | _ => false

theorem string_join_cons (a : String) (l : List String) :
    String.join (a :: l) = a ++ String.join l := by
  simp [String.join_eq, String.ext_iff]

/-- Running the loop over a list that begins with non-stopping messages just
accumulates their diagnostic lines onto the buffer. -/
theorem processLoop_append_noStop (binary_name : String) :
    ∀ (pre : List Message), noStop binary_name pre = true →
    ∀ (rest : List Message) (outc : Option (Except TestBinaryError String))
      (buf : String),
    processLoop binary_name (pre ++ rest) outc buf
      = processLoop binary_name rest outc (buf ++ String.join (diagLines pre)) := by
  intro pre
  induction pre with
  | nil =>
    intro _ rest outc buf
    simp [diagLines, String.join, String.append_empty]
  | cons m ms ih =>
    intro h rest outc buf
    have h1 : stopsScan binary_name m = false := by
      have hx := h
      simp only [noStop, Bool.and_eq_true, Bool.not_eq_true'] at hx
      exact hx.1
    have h2 : noStop binary_name ms = true := by
      have hx := h
      simp only [noStop, Bool.and_eq_true] at hx
      exact hx.2
    cases m with
    | compilerArtifact artf =>
      have hm : isMatch binary_name artf.target = false := by
        simpa [stopsScan] using h1
      simp [processLoop, hm, diagLines, ih h2]
    | compilerMessage msg =>
      simp [processLoop, diagLines, string_join_cons, ih h2, String.append_assoc]
    | textLine text =>
      simp [processLoop, diagLines, string_join_cons, ih h2, String.append_assoc]
    | buildFinished success => simp [stopsScan] at h1
    | other => simp [processLoop, diagLines, ih h2]

/-- Inserting a frame message anywhere in the input leaves the loop's result
unchanged, whatever the current state. -/
theorem processLoop_frame_skip (binary_name : String) (m : Message)
    (hm : isFrame binary_name m = true) (rest : List Message) :
    ∀ (pre : List Message) (outc : Option (Except TestBinaryError String))
      (buf : String),
    processLoop binary_name (pre ++ m :: rest) outc buf
      = processLoop binary_name (pre ++ rest) outc buf := by
  intro pre
  induction pre with
  | nil =>
    intro outc buf
    cases m with
    | compilerArtifact artf =>
      have hma : isMatch binary_name artf.target = false := by
        simpa [isFrame] using hm
      simp [processLoop, hma]
    | other => simp [processLoop]
    | compilerMessage msg => simp [isFrame] at hm
    | textLine text => simp [isFrame] at hm
    | buildFinished success => simp [isFrame] at hm
  | cons hd tl ih =>
    intro outc buf
    cases hd with
    | compilerArtifact artf =>
      by_cases hma : isMatch binary_name artf.target = true
      · simp [processLoop, hma]
      · simp [processLoop, hma, ih]
    | compilerMessage msg => simp [processLoop, ih]
    | textLine text => simp [processLoop, ih]
    | buildFinished success => simp [processLoop]
    | other => simp [processLoop, ih]

/-- C1: if the prefix before a compiler-artifact record contains no matching
artifact and no build-finished record (diagnostics, free text, other record
kinds and non-matching artifacts — including same-name artifacts whose kind
list lacks the bin marker — are all allowed), and the record matches the
requested name, its kind list contains the bin marker, and it carries an
executable path, then the scan returns exactly that path, whatever follows. -/
theorem scan_first_matching_bin_artifact (binary_name path : String)
    (artf : Artifact) (pre post : List Message)
    (hpre : noStop binary_name pre = true)
    (hname : artf.target.name = binary_name)
    (hkind : artf.target.kind.contains "bin" = true)
    (hexe : artf.executable = some path) :
    scanMessages (pre ++ Message.compilerArtifact artf :: post) binary_name
      = some (Except.ok path) := by
  have hm : isMatch binary_name artf.target = true := by
    unfold isMatch
    rw [hname, hkind]
    simp
  unfold scanMessages
  rw [processLoop_append_noStop binary_name pre hpre]
  simp [processLoop, hm, hexe]

/-- C1 witness: a free-text line and a same-name library artifact precede the
matching bin artifact; a finish record follows; the scan returns the path. -/
theorem scan_first_matching_bin_artifact_witness :
    scanMessages
      ([Message.textLine "warning: something",
        Message.compilerArtifact ⟨⟨"fla", ["lib"]⟩, some "/t/libfla.rlib"⟩]
        ++ Message.compilerArtifact ⟨⟨"fla", ["bin"]⟩, some "/t/debug/fla"⟩
        :: [Message.buildFinished true]) "fla"
      = some (Except.ok "/t/debug/fla") :=
  scan_first_matching_bin_artifact "fla" "/t/debug/fla"
    ⟨⟨"fla", ["bin"]⟩, some "/t/debug/fla"⟩
    [Message.textLine "warning: something",
      Message.compilerArtifact ⟨⟨"fla", ["lib"]⟩, some "/t/libfla.rlib"⟩]
    [Message.buildFinished true] (by decide) rfl (by decide) rfl

/-- C2 counterexample: the input ends in a failed build-finished record and
contains no matching artifact, yet the scan does not return a build error with
the concatenated diagnostics — an earlier successful finish record already
decided the result. -/
theorem scan_failed_after_earlier_finish_counterexample :
    scanMessages [Message.buildFinished true, Message.buildFinished false] "fla"
      = some (Except.error (TestBinaryError.binaryNotBuilt "fla"))
    ∧ scanMessages [Message.buildFinished true, Message.buildFinished false] "fla"
      ≠ some (Except.error (TestBinaryError.buildError "")) := by
  exact ⟨rfl, by simp [scanMessages, processLoop, Option.orElse]⟩

/-- C2 (amended): if no earlier matching artifact and no earlier
build-finished record precede the failed finish marker, the scan returns a
build error whose text is the concatenation, in arrival order, of the contents
of all compiler-message and free-text lines seen before the marker, each
followed by exactly one line terminator. -/
theorem scan_build_failed_concats_diagnostics (binary_name : String)
    (pre : List Message) (hpre : noStop binary_name pre = true) :
    scanMessages (pre ++ [Message.buildFinished false]) binary_name
      = some (Except.error (TestBinaryError.buildError
          (String.join (diagLines pre)))) := by
  unfold scanMessages
  rw [processLoop_append_noStop binary_name pre hpre]
  simp [processLoop, String.empty_append]

/-- C2 witness: two diagnostic lines and an ignored record kind before the
failed finish marker; the error text is their concatenation. -/
theorem scan_build_failed_concats_diagnostics_witness :
    scanMessages
      ([Message.compilerMessage "error: boom", Message.other,
        Message.textLine "note: extra"]
        ++ [Message.buildFinished false]) "fla"
      = some (Except.error (TestBinaryError.buildError
          (String.join (diagLines
            [Message.compilerMessage "error: boom", Message.other,
              Message.textLine "note: extra"])))) :=
  scan_build_failed_concats_diagnostics "fla"
    [Message.compilerMessage "error: boom", Message.other,
      Message.textLine "note: extra"] (by decide)

/-- C6: the scan's result is decided by the prefix that ends at the first
stopping record (the first matching artifact or the first build-finished
record, whichever comes first); any suffix after that record is never
consulted. -/
theorem scan_decided_at_first_stop (binary_name : String)
    (pre post : List Message) (m : Message)
    (hpre : noStop binary_name pre = true)
    (hm : stopsScan binary_name m = true) :
    scanMessages (pre ++ m :: post) binary_name
      = scanMessages (pre ++ [m]) binary_name := by
  unfold scanMessages
  rw [processLoop_append_noStop binary_name pre hpre,
    processLoop_append_noStop binary_name pre hpre]
  cases m with
  | compilerArtifact artf =>
    have hma : isMatch binary_name artf.target = true := by
      simpa [stopsScan] using hm
    simp [processLoop, hma]
  | buildFinished success => simp [processLoop]
  | compilerMessage msg => simp [stopsScan] at hm
  | textLine text => simp [stopsScan] at hm
  | other => simp [stopsScan] at hm

/-- C6 witness: lines after the first finish record do not change the result. -/
theorem scan_decided_at_first_stop_witness :
    scanMessages
      ([Message.textLine "building"]
        ++ Message.buildFinished false
        :: [Message.compilerArtifact ⟨⟨"fla", ["bin"]⟩, some "/t/fla"⟩]) "fla"
      = scanMessages
          ([Message.textLine "building"] ++ [Message.buildFinished false]) "fla" :=
  scan_decided_at_first_stop "fla" [Message.textLine "building"]
    [Message.compilerArtifact ⟨⟨"fla", ["bin"]⟩, some "/t/fla"⟩]
    (Message.buildFinished false) (by decide) (by decide)

/-- C7 counterexample: the first (and only) matching artifact record carries
no executable path, but the scan does not stop at it and does not return the
binary-not-built error — a failed finish record before it already decided the
result as a build error. -/
theorem scan_no_executable_after_finish_counterexample :
    scanMessages
      [Message.buildFinished false,
        Message.compilerArtifact ⟨⟨"fla", ["bin"]⟩, none⟩] "fla"
      = some (Except.error (TestBinaryError.buildError ""))
    ∧ scanMessages
        [Message.buildFinished false,
          Message.compilerArtifact ⟨⟨"fla", ["bin"]⟩, none⟩] "fla"
      ≠ some (Except.error (TestBinaryError.binaryNotBuilt "fla")) := by
  exact ⟨rfl, by simp [scanMessages, processLoop, Option.orElse]⟩

/-- C7 (amended): if no matching artifact and no build-finished record precede
it, a matching artifact record that carries no executable path stops the scan
with the binary-not-built error naming the requested target, whatever
follows. -/
theorem scan_match_without_executable (binary_name : String) (artf : Artifact)
    (pre post : List Message)
    (hpre : noStop binary_name pre = true)
    (hname : artf.target.name = binary_name)
    (hkind : artf.target.kind.contains "bin" = true)
    (hexe : artf.executable = none) :
    scanMessages (pre ++ Message.compilerArtifact artf :: post) binary_name
      = some (Except.error (TestBinaryError.binaryNotBuilt binary_name)) := by
  have hm : isMatch binary_name artf.target = true := by
    unfold isMatch
    rw [hname, hkind]
    simp
  unfold scanMessages
  rw [processLoop_append_noStop binary_name pre hpre]
  simp [processLoop, hm, hexe]

/-- C7 witness: a pathless matching artifact after an ignored record yields
the binary-not-built error even though a successful finish record follows. -/
theorem scan_match_without_executable_witness :
    scanMessages
      ([Message.other]
        ++ Message.compilerArtifact ⟨⟨"fla", ["bin"]⟩, none⟩
        :: [Message.buildFinished true]) "fla"
      = some (Except.error (TestBinaryError.binaryNotBuilt "fla")) :=
  scan_match_without_executable "fla" ⟨⟨"fla", ["bin"]⟩, none⟩
    [Message.other] [Message.buildFinished true] (by decide) rfl (by decide) rfl

/-- C8 counterexample: a successful build-finished record arrives with no
prior matching artifact, but the scan does not stop at it and does not return
the binary-not-built error — an earlier failed finish record already decided
the result. -/
theorem scan_finished_true_after_failure_counterexample :
    scanMessages [Message.buildFinished false, Message.buildFinished true] "fla"
      = some (Except.error (TestBinaryError.buildError ""))
    ∧ scanMessages [Message.buildFinished false, Message.buildFinished true] "fla"
      ≠ some (Except.error (TestBinaryError.binaryNotBuilt "fla")) := by
  exact ⟨rfl, by simp [scanMessages, processLoop, Option.orElse]⟩

/-- C8 (amended): if the first build-finished record of the input reports
success and no matching artifact precedes it, the scan stops there and returns
the binary-not-built error naming the requested target; in particular an input
consisting only of that record does. -/
theorem scan_finished_success_not_built (binary_name : String)
    (pre post : List Message) (hpre : noStop binary_name pre = true) :
    scanMessages (pre ++ Message.buildFinished true :: post) binary_name
      = some (Except.error (TestBinaryError.binaryNotBuilt binary_name)) := by
  unfold scanMessages
  rw [processLoop_append_noStop binary_name pre hpre]
  simp [processLoop, Option.orElse]

/-- C8 witness: the input consisting of only a successful finish record. -/
theorem scan_finished_success_not_built_witness :
    scanMessages ([] ++ Message.buildFinished true :: []) "fla"
      = some (Except.error (TestBinaryError.binaryNotBuilt "fla")) :=
  scan_finished_success_not_built "fla" [] [] rfl

/-- C3 counterexample: the child exits with success and the parsed outcome is
the build-failure error, yet build returns that plain build-failure error —
not the internal-consistency signal and not success. -/
theorem reconcile_success_parsed_failure_counterexample :
    build_reconcile true
        (some (Except.error (TestBinaryError.buildError "error: boom\n")))
        "stderr text"
      = BuildResult.err (TestBinaryError.buildError "error: boom\n")
    ∧ build_reconcile true
        (some (Except.error (TestBinaryError.buildError "error: boom\n")))
        "stderr text"
      ≠ BuildResult.panicked "Cargo succeeded but produced no output" := by
  exact ⟨rfl, by simp [build_reconcile]⟩

/-- C3 (amended): when the child exits with success, an absent parse outcome
panics with the internal-consistency message, a found path is returned as
success, and any parsed error outcome — including a parsed build failure — is
returned as that same error; exit code 0 never turns a parsed failure into
success, and never replaces it with the internal-consistency signal. -/
theorem reconcile_exit_success_cases (e : TestBinaryError)
    (path stderr_text : String) :
    build_reconcile true none stderr_text
        = BuildResult.panicked "Cargo succeeded but produced no output"
    ∧ build_reconcile true (some (Except.ok path)) stderr_text
        = BuildResult.ok path
    ∧ build_reconcile true (some (Except.error e)) stderr_text
        = BuildResult.err e := by
  exact ⟨rfl, rfl, rfl⟩

/-- C4 counterexample: the child exits with failure and the parsed outcome is
the binary-not-built error (not a parsed build failure), yet build returns that
error rather than the failure carrying the raw stderr text. -/
theorem reconcile_failure_not_built_counterexample :
    build_reconcile false
        (some (Except.error (TestBinaryError.binaryNotBuilt "fla")))
        "stderr text"
      = BuildResult.err (TestBinaryError.binaryNotBuilt "fla")
    ∧ build_reconcile false
        (some (Except.error (TestBinaryError.binaryNotBuilt "fla")))
        "stderr text"
      ≠ BuildResult.err (TestBinaryError.cargoFailure "stderr text") := by
  exact ⟨rfl, by simp [build_reconcile]⟩

/-- C4 (amended): when the child exits with failure, a parse outcome that is
absent or a found path falls back to the failure carrying exactly the raw
stderr text; but any parsed error outcome (a parsed build failure or the
binary-not-built error) is returned as that error itself. -/
theorem reconcile_exit_failure_cases (e : TestBinaryError)
    (path stderr_text : String) :
    build_reconcile false none stderr_text
        = BuildResult.err (TestBinaryError.cargoFailure stderr_text)
    ∧ build_reconcile false (some (Except.ok path)) stderr_text
        = BuildResult.err (TestBinaryError.cargoFailure stderr_text)
    ∧ build_reconcile false (some (Except.error e)) stderr_text
        = BuildResult.err e := by
  exact ⟨rfl, rfl, rfl⟩

/-- C9 counterexample: a read error in the middle of the structured stream is
silently dropped and scanning continues on the following lines exactly as if
the error had not occurred: the result is the same as for the stream without
the error item, and it is the success extracted from the line after the
error. -/
theorem stream_error_skipped_counterexample :
    processMessages
        [Except.error "read error",
          Except.ok (Message.compilerArtifact ⟨⟨"fla", ["bin"]⟩, some "/t/fla"⟩)]
        "fla"
      = processMessages
          [Except.ok (Message.compilerArtifact ⟨⟨"fla", ["bin"]⟩, some "/t/fla"⟩)]
          "fla"
    ∧ processMessages
        [Except.error "read error",
          Except.ok (Message.compilerArtifact ⟨⟨"fla", ["bin"]⟩, some "/t/fla"⟩)]
        "fla"
      = some (Except.ok "/t/fla") := by
  exact ⟨rfl, rfl⟩

/-- C9 (amended): record-level unparsable lines never surface as errors (the
stream parser turns them into free-text items before the loop runs), and an
error item yielded by the stream iterator is silently discarded by the
flattening step: removing it leaves the scan result unchanged, and processing
continues on the remaining items. Only child-process spawn/wait and
stderr-read errors are propagated by the orchestrator. -/
theorem stream_errors_discarded (binary_name msg : String)
    (pre post : List (Except String Message)) :
    processMessages (pre ++ Except.error msg :: post) binary_name
      = processMessages (pre ++ post) binary_name := by
  simp [processMessages, flattenStream, List.filterMap_append, List.filterMap_cons,
    Except.toOption]

/-- C10: inserting a frame message — a compiler-artifact record whose name
differs from the requested one or whose kind list lacks the bin marker, or a
structured record of any other ignored kind — anywhere in the input leaves the
scan result unchanged; in particular such lines contribute nothing to the
diagnostic text surfaced on failure, which is accumulated only from
compiler-message and free-text lines. -/
theorem scan_frame_messages_ignored (binary_name : String) (m : Message)
    (pre rest : List Message) (hm : isFrame binary_name m = true) :
    scanMessages (pre ++ m :: rest) binary_name
      = scanMessages (pre ++ rest) binary_name :=
  processLoop_frame_skip binary_name m hm rest pre none ""

/-- C10 witness: a same-name library artifact inserted before the failed
finish record leaves the build-error text untouched. -/
theorem scan_frame_messages_ignored_witness :
    scanMessages
      ([Message.textLine "note: a"]
        ++ Message.compilerArtifact ⟨⟨"fla", ["lib"]⟩, some "/t/libfla.rlib"⟩
        :: [Message.buildFinished false]) "fla"
      = scanMessages
          ([Message.textLine "note: a"] ++ [Message.buildFinished false]) "fla" :=
  scan_frame_messages_ignored "fla"
    (Message.compilerArtifact ⟨⟨"fla", ["lib"]⟩, some "/t/libfla.rlib"⟩)
    [Message.textLine "note: a"] [Message.buildFinished false] (by decide)
